import Mathlib

/-!
Shallow embedding of `src/app.py` (KIT_Student_protest): a Flask service over
a MongoDB collection named `students`, with a submit endpoint, two read
endpoints and an admin-key protected CSV export.  Decoded request values,
stored BSON documents, the collection state and the four route handlers are
modelled as executable Lean definitions; the theorems below settle the
specification claims about them.
-/

/-- A JSON value as decoded by `request.get_json` in `api_submit`: a Python
str, int, bool, None, list or dict.  JSON floats are not exercised by any
claim and are omitted. -/
inductive PyVal where
  | pstr : String → PyVal
  | pint : Int → PyVal
  | pbool : Bool → PyVal
  | pnone : PyVal
  | plist : List PyVal → PyVal
  | pdict : List (String × PyVal) → PyVal

/-- The single-quote character, used by the Python repr of strings. -/
def squote : String := ⟨[Char.ofNat 39]⟩

/-- The whitespace characters removed by Python `str.strip()`: space, tab,
LF, CR, vertical tab and form feed. -/
def pyWhite (c : Char) : Bool :=
  c == ' ' || c == '\t' || c == '\n' || c == '\r' || c == '\x0b' || c == '\x0c'

/-- Models Python `str.strip()`: removes leading and trailing whitespace. -/
def pyStrip (s : String) : String :=
  ⟨((s.data.dropWhile pyWhite).reverse.dropWhile pyWhite).reverse⟩

mutual
/-- Models Python `repr` of a decoded JSON value (nested strings render
between single quotes; escaping inside nested strings is not modelled, as no
claim exercises it). -/
def pyRepr : PyVal → String
  | .pstr s => squote ++ s ++ squote
  | .pint n => toString n
  | .pbool b => bif b then "True" else "False"
  | .pnone => "None"
  | .plist xs => "[" ++ String.intercalate ", " (pyReprList xs) ++ "]"
  | .pdict kvs => "\x7b" ++ String.intercalate ", " (pyReprPairs kvs) ++ "\x7d"

/-- Renders each element of a Python list, for `pyRepr`. -/
def pyReprList : List PyVal → List String
  | [] => []
  | v :: vs => pyRepr v :: pyReprList vs

/-- Renders each key/value pair of a Python dict, for `pyRepr`. -/
def pyReprPairs : List (String × PyVal) → List String
  | [] => []
  | (k, v) :: kvs => (squote ++ k ++ squote ++ ": " ++ pyRepr v) :: pyReprPairs kvs
end

/-- Models Python `str()` applied to a decoded JSON value, as used in
`str(data[r])` at app.py lines 74 and 78-82: a string maps to itself, any
other value to its repr-style rendering. -/
def pyStr : PyVal → String
  | .pstr s => s
  | .pint n => toString n
  | .pbool b => bif b then "True" else "False"
  | .pnone => "None"
  | v => pyRepr v

/-- A BSON value stored in a document: a string field, a datetime (instants
abstracted to Nat), an ObjectId (abstracted to Nat), or null. -/
inductive MVal where
  | s : String → MVal
  | time : Nat → MVal
  | oid : Nat → MVal
  | nul : MVal
deriving DecidableEq, Repr

/-- A stored document: an association list of field names to BSON values
(MongoDB documents are schemaless). -/
abbrev Document := List (String × MVal)

/-- State of the `students` collection: the stored documents in insertion
order, plus the next ObjectId to assign (models ObjectId generation performed
by `insert_one`). -/
structure DBState where
  docs : List Document
  nextId : Nat
deriving DecidableEq, Repr

/-- Abstract model of `datetime.isoformat`: instants are abstracted to `Nat`
and this function stands for the ISO-8601 rendering of the instant. -/
def isoformat (t : Nat) : String := toString t

/-- A JSON payload of a response, as produced by the `jsonify` calls in
app.py. -/
inductive Payload where
  | err : String → Payload
  | entryCreated : Document → Payload
  | records : List Document → Payload
  | counts : Nat → Nat → Nat → Payload
deriving DecidableEq, Repr

/-- An HTTP response of a route handler: a JSON body with a status code, a
200 CSV attachment (`petition_records.csv`), or an exception that escaped the
handler (Flask then produces its generic error page, not a JSON envelope). -/
inductive Resp where
  | json : Nat → Payload → Resp
  | csvAttachment : String → Resp
  | unhandled : Resp
deriving DecidableEq, Repr

/-- The required-field list of `api_submit` (app.py line 72), in source
order. -/
def required : List String := ["afn", "year", "branch", "comment", "form_type"]

/-- Models the per-field test of the validation loop at app.py line 74:
`r not in data or not str(data[r]).strip()`. -/
def fieldBad (data : List (String × PyVal)) (r : String) : Bool :=
  match data.lookup r with
  | none => true
  | some v => pyStrip (pyStr v) == ""

/-- Value of field `r` in the entry built at app.py lines 77-84:
`str(data[r]).strip()`; total with default "" although `api_submit` only
evaluates it on present fields. -/
def getField (data : List (String × PyVal)) (r : String) : String :=
  match data.lookup r with
  | some v => pyStrip (pyStr v)
  | none => ""

/-- The six-field entry dict built by `api_submit` (app.py lines 77-84)
before the insert. -/
def buildEntry (data : List (String × PyVal)) (now : Nat) : Document :=
  [("afn", .s (getField data "afn")),
   ("year", .s (getField data "year")),
   ("branch", .s (getField data "branch")),
   ("comment", .s (getField data "comment")),
   ("form_type", .s (getField data "form_type")),
   ("created_at", .time now)]

/-- Models `api_submit` (app.py lines 62-92).  Besides the request body, the
inputs are: `avail`, the startup availability flag (`collection is not
None`); `body`, the outcome of `request.get_json(force=True)` (`.error` is a
parse failure; a parsed body is taken to be a JSON object); `now`, the value
of `datetime.utcnow()`; `insertOk`, false when `insert_one` raises
`PyMongoError`.  Returns the new collection state and the response. -/
def api_submit (avail : Bool) (st : DBState)
    (body : Except Unit (List (String × PyVal))) (now : Nat) (insertOk : Bool) :
    DBState × Resp :=
  if !avail then (st, .json 503 (.err "Database unavailable"))
  else match body with
  | .error _ => (st, .json 400 (.err "Invalid JSON body"))
  | .ok data =>
    match required.find? (fieldBad data) with
    | some r => (st, .json 400 (.err ("Missing or empty field: " ++ r)))
    | none =>
      let entry := buildEntry data now
      if insertOk then
        ({ docs := st.docs ++ [entry ++ [("_id", .oid st.nextId)]],
           nextId := st.nextId + 1 },
         .json 201 (.entryCreated (entry ++ [("_id", .s (Nat.repr st.nextId))])))
      else (st, .json 500 (.err "Database insert failed"))

/-- Sort key of `.sort("created_at", -1)` (app.py lines 102 and 158): a
missing or non-datetime `created_at` sorts below every timestamp, as BSON
missing/null sorts lowest; modelled as the key `-1` below the `Nat`-valued
timestamps. -/
def createdKey (d : Document) : Int :=
  match d.lookup "created_at" with
  | some (.time t) => (t : Int)
  | _ => -1

/-- Ordering of the descending `created_at` sort: `a` may come before `b`
exactly when the key of `b` is at most the key of `a`. -/
def newerFirst (a b : Document) : Prop := createdKey b ≤ createdKey a

instance : DecidableRel newerFirst := fun a b =>
  inferInstanceAs (Decidable (createdKey b ≤ createdKey a))

instance : IsTotal Document newerFirst :=
  ⟨fun a b => (le_total (createdKey b) (createdKey a)).imp id id⟩

instance : IsTrans Document newerFirst :=
  ⟨fun _ _ _ hab hbc => le_trans hbc hab⟩

/-- Models `collection.find().sort("created_at", -1)`: the stored documents
ordered by `created_at` descending. -/
def sortByCreatedDesc (docs : List Document) : List Document :=
  docs.insertionSort newerFirst

/-- Models Python `str()` of an optional BSON value, as in `str(d.get("_id"))`
at app.py lines 104 and 170 (`str(None)` is `"None"`). -/
def strOfLookup : Option MVal → String
  | some (.s s) => s
  | some (.time t) => toString t
  | some (.oid n) => Nat.repr n
  | some .nul => "None"
  | none => "None"

/-- Models `d.get(k)` rendered into JSON: the stored value, or null when the
field is absent. -/
def orNull : Option MVal → MVal
  | some v => v
  | none => .nul

/-- Models `d.get("created_at").isoformat() if d.get("created_at") else None`
(app.py line 110) for documents whose `created_at`, when present and
non-null, is a datetime — the only shape this service writes. -/
def createdOut (d : Document) : MVal :=
  match d.lookup "created_at" with
  | some (.time t) => .s (isoformat t)
  | _ => .nul

/-- The per-document dict built by `api_records` (app.py lines 103-111). -/
def recordItem (d : Document) : Document :=
  [("_id", .s (strOfLookup (d.lookup "_id"))),
   ("afn", orNull (d.lookup "afn")),
   ("year", orNull (d.lookup "year")),
   ("branch", orNull (d.lookup "branch")),
   ("comment", orNull (d.lookup "comment")),
   ("form_type", orNull (d.lookup "form_type")),
   ("created_at", createdOut d)]

/-- Models `api_records` (app.py lines 95-115).  `docs` is the stored
collection in insertion order; `readOk` is false when the find or the cursor
iteration raises `PyMongoError` (both happen inside the try there). -/
def api_records (avail : Bool) (docs : List Document) (readOk : Bool) : Resp :=
  if !avail then .json 503 (.err "Database unavailable")
  else if readOk then
    .json 200 (.records ((sortByCreatedDesc docs).map recordItem))
  else .json 500 (.err "Database read failed")

/-- The filter of `count_documents` with a `form_type` equality query
(app.py lines 125-126): the stored field equals the string `v` exactly. -/
def formTypeIs (v : String) (d : Document) : Bool :=
  d.lookup "form_type" == some (.s v)

/-- Models `api_counts` (app.py lines 118-130).  `countOk` is false when any
of the three `count_documents` calls raises `PyMongoError`. -/
def api_counts (avail : Bool) (docs : List Document) (countOk : Bool) : Resp :=
  if !avail then .json 503 (.err "Database unavailable")
  else if countOk then
    .json 200 (.counts docs.length
      (docs.countP (formTypeIs "petition"))
      (docs.countP (formTypeIs "demand")))
  else .json 500 (.err "Database count failed")

/-- Truthiness of an optional string in Python: `None` and `""` are falsy. -/
def truthyStr : Option String → Bool
  | none => false
  | some s => s != ""

/-- Models `_check_admin_key` (app.py lines 134-146): `ADMIN_KEY` must be
configured, then the `X-ADMIN-KEY` header is checked first and the
`admin_key` query parameter second. -/
def _check_admin_key (adminKey headerKey paramKey : Option String) : Bool :=
  match adminKey with
  | none => false
  | some k =>
    if truthyStr headerKey && (headerKey == some k) then true
    else if truthyStr paramKey && (paramKey == some k) then true
    else false

/-- A field needs quoting under the csv.writer default dialect
(QUOTE_MINIMAL) when it contains the delimiter, the quote character, or a
CR or LF. -/
def csvNeedsQuote (s : String) : Bool :=
  s.data.any fun c => c == ',' || c == '"' || c == '\r' || c == '\n'

/-- Models csv.writer field rendering: wrapped in quotes with inner quotes
doubled when quoting is needed, verbatim otherwise. -/
def csvField (s : String) : String :=
  if csvNeedsQuote s then
    "\"" ++ (⟨s.data.flatMap fun c => if c == '"' then ['"', '"'] else [c]⟩ : String) ++ "\""
  else s

/-- Models `csv.writer.writerow`: comma-separated rendered fields followed by
the default CRLF line terminator. -/
def csvRow (fs : List String) : String :=
  String.intercalate "," (fs.map csvField) ++ "\r\n"

/-- The fixed header row written at app.py line 167. -/
def csvHeaderLine : String :=
  csvRow ["id", "afn", "year", "branch", "form_type", "comment", "created_at_utc_iso"]

/-- Per-character action of `comment.replace("\r", " ").replace("\n", " \\n ")`
(app.py line 175): with single-character patterns the two sequential replaces
act independently on each character, the first inserting only spaces, which
the second leaves alone. -/
def escChar (c : Char) : List Char :=
  if c == '\r' then [' ']
  else if c == '\n' then [' ', '\\', 'n', ' ']
  else [c]

/-- The comment transform applied to each exported row. -/
def escapeComment (s : String) : String := ⟨s.data.flatMap escChar⟩

/-- Models `doc.get(k, "")` (app.py lines 171-175) for documents whose
fields, when present, are strings — the only shape this service writes. -/
def getStrField (d : Document) (k : String) : String :=
  match d.lookup k with
  | some (.s s) => s
  | _ => ""

/-- Models the `created_at` cell of a row (app.py line 176): isoformat when
the field holds a datetime, `""` otherwise. -/
def createdCell (d : Document) : String :=
  match d.lookup "created_at" with
  | some (.time t) => isoformat t
  | _ => ""

/-- One CSV data row of the export (app.py lines 169-177). -/
def exportRow (d : Document) : String :=
  csvRow [strOfLookup (d.lookup "_id"),
          getStrField d "afn", getStrField d "year", getStrField d "branch",
          getStrField d "form_type",
          escapeComment (getStrField d "comment"),
          createdCell d]

/-- Where the storage read of the export fails, if it does: when the query is
issued (inside the try at app.py lines 157-161) or while the cursor is being
iterated (the for loop at line 169, which is outside any try). -/
inductive ReadFail where
  | ok : ReadFail
  | atQuery : ReadFail
  | atIteration : ReadFail
deriving DecidableEq, Repr

/-- Models `admin_export_csv` (app.py lines 149-184).  A failure while the
cursor is iterated escapes the handler, so the response is `Resp.unhandled`
rather than any JSON envelope or CSV. -/
def admin_export_csv (adminKey headerKey paramKey : Option String)
    (avail : Bool) (rf : ReadFail) (docs : List Document) : Resp :=
  if !(_check_admin_key adminKey headerKey paramKey) then
    .json 401 (.err "Unauthorized")
  else if !avail then .json 503 (.err "Database unavailable")
  else match rf with
  | .atQuery => .json 500 (.err "Database read failed")
  | .atIteration => .unhandled
  | .ok =>
    .csvAttachment (csvHeaderLine ++
      String.join ((sortByCreatedDesc docs).map exportRow))





/-- The accumulator of `Nat.toDigitsCore` only ever grows. -/
theorem length_le_toDigitsCore (b : Nat) :
    ∀ (f n : Nat) (l : List Char), l.length ≤ (Nat.toDigitsCore b f n l).length := by
  intro f
  induction f with
  | zero => intro n l; exact le_refl _
  | succ f ih =>
    intro n l
    rw [Nat.toDigitsCore]
    by_cases h : n / b = 0
    · simp [h]
    · simp only [h, if_false]
      exact le_trans (by simp) (ih (n / b) (Nat.digitChar (n % b) :: l))

/-- The decimal rendering of a natural number is never the empty string. -/
theorem repr_ne_empty (n : Nat) : Nat.repr n ≠ "" := by
  have hlen : 1 ≤ (Nat.toDigitsCore 10 (n + 1) n []).length := by
    rw [Nat.toDigitsCore]
    by_cases h : n / 10 = 0
    · simp [h]
    · simp only [h, if_false]
      exact le_trans (by simp) (length_le_toDigitsCore 10 n (n / 10) _)
  intro hcon
  have hdata : Nat.toDigitsCore 10 (n + 1) n [] = [] := by
    have := congrArg String.data hcon
    simpa [Nat.repr, Nat.toDigits, List.asString] using this
  rw [hdata] at hlen
  simp at hlen

/-- Two pointwise-exclusive predicates count at most the length between
them. -/
theorem countP_disjoint_le {α : Type} (p q : α → Bool) (l : List α)
    (h : ∀ x ∈ l, p x = true → q x = false) :
    l.countP p + l.countP q ≤ l.length := by
  induction l with
  | nil => simp
  | cons a l ih =>
    have ha := h a (by simp)
    have ih2 := ih fun x hx => h x (by simp [hx])
    by_cases hp : p a = true <;> by_cases hq : q a = true
    · rw [ha hp] at hq; simp at hq
    · simp [List.countP_cons, hp, hq]; omega
    · simp [List.countP_cons, hp, hq]; omega
    · simp [List.countP_cons, hp, hq]; omega

/-- C1: for every POST /api/submit request the checks run in the fixed
order: persistence availability first (503 "Database unavailable"), then the
JSON body parse (400 "Invalid JSON body"), then field validation of afn,
year, branch, comment, form_type in exactly that order, answering 400
"Missing or empty field: name" for the first field absent or whitespace-only
after trimming, and only then the insert. -/
theorem submit_check_order (st : DBState) (now : Nat) (insertOk : Bool) :
    (∀ body, api_submit false st body now insertOk =
      (st, .json 503 (.err "Database unavailable"))) ∧
    (∀ e, api_submit true st (.error e) now insertOk =
      (st, .json 400 (.err "Invalid JSON body"))) ∧
    (∀ data, fieldBad data "afn" = true →
      api_submit true st (.ok data) now insertOk =
        (st, .json 400 (.err "Missing or empty field: afn"))) ∧
    (∀ data, fieldBad data "afn" = false → fieldBad data "year" = true →
      api_submit true st (.ok data) now insertOk =
        (st, .json 400 (.err "Missing or empty field: year"))) ∧
    (∀ data, fieldBad data "afn" = false → fieldBad data "year" = false →
      fieldBad data "branch" = true →
      api_submit true st (.ok data) now insertOk =
        (st, .json 400 (.err "Missing or empty field: branch"))) ∧
    (∀ data, fieldBad data "afn" = false → fieldBad data "year" = false →
      fieldBad data "branch" = false → fieldBad data "comment" = true →
      api_submit true st (.ok data) now insertOk =
        (st, .json 400 (.err "Missing or empty field: comment"))) ∧
    (∀ data, fieldBad data "afn" = false → fieldBad data "year" = false →
      fieldBad data "branch" = false → fieldBad data "comment" = false →
      fieldBad data "form_type" = true →
      api_submit true st (.ok data) now insertOk =
        (st, .json 400 (.err "Missing or empty field: form_type"))) ∧
    (∀ data, (∀ r ∈ required, fieldBad data r = false) →
      api_submit true st (.ok data) now insertOk =
        if insertOk then
          ({ docs := st.docs ++ [buildEntry data now ++ [("_id", .oid st.nextId)]],
             nextId := st.nextId + 1 },
           .json 201 (.entryCreated
             (buildEntry data now ++ [("_id", .s (Nat.repr st.nextId))])))
        else (st, .json 500 (.err "Database insert failed"))) := by
  refine ⟨fun body => rfl, fun e => rfl, ?_, ?_, ?_, ?_, ?_, ?_⟩
  · intro data h0
    simp [api_submit, required, List.find?, h0]
  · intro data h0 h1
    simp [api_submit, required, List.find?, h0, h1]
  · intro data h0 h1 h2
    simp [api_submit, required, List.find?, h0, h1, h2]
  · intro data h0 h1 h2 h3
    simp [api_submit, required, List.find?, h0, h1, h2, h3]
  · intro data h0 h1 h2 h3 h4
    simp [api_submit, required, List.find?, h0, h1, h2, h3, h4]
  · intro data hall
    have h0 := hall "afn" (by simp [required])
    have h1 := hall "year" (by simp [required])
    have h2 := hall "branch" (by simp [required])
    have h3 := hall "comment" (by simp [required])
    have h4 := hall "form_type" (by simp [required])
    cases insertOk <;> simp [api_submit, required, List.find?, h0, h1, h2, h3, h4]

/-- Witness for C1: a body whose afn is fine but whose year is blank is
rejected naming year, the first bad field. -/
theorem submit_check_order_witness :
    api_submit true ⟨[], 0⟩
      (.ok [("afn", PyVal.pstr "a"), ("year", PyVal.pstr " "),
            ("branch", PyVal.pstr ""), ("comment", PyVal.pstr "c")]) 7 true =
      (⟨[], 0⟩, .json 400 (.err "Missing or empty field: year")) :=
  (submit_check_order ⟨[], 0⟩ 7 true).2.2.2.1 _ (by decide) (by decide)

/-- C2: a submit whose body has the five fields present and non-blank after
trimming, with a successful insert, answers 201 with the trimmed entry, a
service-stamped created_at independent of the body, a non-empty assigned id,
and inserts exactly one document. -/
theorem submit_success (st : DBState) (data : List (String × PyVal)) (now : Nat)
    (hok : ∀ r ∈ required, fieldBad data r = false) :
    api_submit true st (.ok data) now true =
      ({ docs := st.docs ++ [buildEntry data now ++ [("_id", .oid st.nextId)]],
         nextId := st.nextId + 1 },
       .json 201 (.entryCreated
         (buildEntry data now ++ [("_id", .s (Nat.repr st.nextId))]))) ∧
    (api_submit true st (.ok data) now true).1.docs.length = st.docs.length + 1 ∧
    (buildEntry data now).lookup "created_at" = some (.time now) ∧
    (∀ r ∈ required, (buildEntry data now).lookup r = some (.s (getField data r))) ∧
    (∀ r v, data.lookup r = some v → getField data r = pyStrip (pyStr v)) ∧
    Nat.repr st.nextId ≠ "" := by
  have h0 := hok "afn" (by simp [required])
  have h1 := hok "year" (by simp [required])
  have h2 := hok "branch" (by simp [required])
  have h3 := hok "comment" (by simp [required])
  have h4 := hok "form_type" (by simp [required])
  have heq : api_submit true st (.ok data) now true =
      ({ docs := st.docs ++ [buildEntry data now ++ [("_id", .oid st.nextId)]],
         nextId := st.nextId + 1 },
       .json 201 (.entryCreated
         (buildEntry data now ++ [("_id", .s (Nat.repr st.nextId))]))) := by
    simp [api_submit, required, List.find?, h0, h1, h2, h3, h4]
  refine ⟨heq, by rw [heq]; simp, rfl, ?_, ?_, repr_ne_empty st.nextId⟩
  · intro r hr
    simp only [required, List.mem_cons, List.not_mem_nil, or_false] at hr
    rcases hr with rfl | rfl | rfl | rfl | rfl <;> rfl
  · intro r v h
    simp [getField, h]

/-- Witness for C2: a concrete valid submit, with surrounding whitespace
trimmed, the service timestamp stored, id "4" assigned has non-empty form. -/
theorem submit_success_witness :
    api_submit true ⟨[], 4⟩
      (.ok [("afn", PyVal.pstr " a "), ("year", PyVal.pstr "1"),
            ("branch", PyVal.pstr "b"), ("comment", PyVal.pstr "c"),
            ("form_type", PyVal.pstr "petition"), ("created_at", PyVal.pstr "fake")]) 9 true =
      ({ docs := [[("afn", .s "a"), ("year", .s "1"), ("branch", .s "b"),
                   ("comment", .s "c"), ("form_type", .s "petition"),
                   ("created_at", .time 9), ("_id", .oid 4)]],
         nextId := 5 },
       .json 201 (.entryCreated
         [("afn", .s "a"), ("year", .s "1"), ("branch", .s "b"), ("comment", .s "c"),
          ("form_type", .s "petition"), ("created_at", .time 9), ("_id", .s "4")])) ∧
    Nat.repr 4 ≠ "" := by
  have h := submit_success ⟨[], 4⟩
    [("afn", PyVal.pstr " a "), ("year", PyVal.pstr "1"),
     ("branch", PyVal.pstr "b"), ("comment", PyVal.pstr "c"),
     ("form_type", PyVal.pstr "petition"), ("created_at", PyVal.pstr "fake")] 9 (by decide)
  refine ⟨?_, h.2.2.2.2.2⟩
  rw [h.1]; decide

/-- C9: body keys beyond the five required ones are ignored: the stored
document and the returned entry hold exactly afn, year, branch, comment,
form_type, created_at and the id, and nothing else, whatever extra keys the
body carries. -/
theorem submit_exact_keys (st : DBState) (data : List (String × PyVal)) (now : Nat)
    (hok : ∀ r ∈ required, fieldBad data r = false) :
    (api_submit true st (.ok data) now true).1.docs =
      st.docs ++ [buildEntry data now ++ [("_id", .oid st.nextId)]] ∧
    (buildEntry data now ++ [("_id", MVal.oid st.nextId)]).map Prod.fst =
      ["afn", "year", "branch", "comment", "form_type", "created_at", "_id"] ∧
    ∃ e, (api_submit true st (.ok data) now true).2 = .json 201 (.entryCreated e) ∧
      e.map Prod.fst =
        ["afn", "year", "branch", "comment", "form_type", "created_at", "_id"] := by
  have heq := (submit_success st data now hok).1
  exact ⟨by rw [heq], rfl,
    ⟨buildEntry data now ++ [("_id", MVal.s (Nat.repr st.nextId))], by rw [heq], rfl⟩⟩

/-- Witness for C9: a body carrying an extra key and a caller-supplied
created_at stores a document with exactly the seven fields. -/
theorem submit_exact_keys_witness :
    (api_submit true ⟨[], 0⟩
      (.ok [("afn", PyVal.pstr "a"), ("year", PyVal.pstr "1"),
            ("branch", PyVal.pstr "b"), ("comment", PyVal.pstr "c"),
            ("form_type", PyVal.pstr "demand"), ("extra", PyVal.pstr "ignored")]) 3 true).1.docs =
      [[("afn", .s "a"), ("year", .s "1"), ("branch", .s "b"), ("comment", .s "c"),
        ("form_type", .s "demand"), ("created_at", .time 3), ("_id", .oid 0)]] := by
  have h := submit_exact_keys ⟨[], 0⟩
    [("afn", PyVal.pstr "a"), ("year", PyVal.pstr "1"),
     ("branch", PyVal.pstr "b"), ("comment", PyVal.pstr "c"),
     ("form_type", PyVal.pstr "demand"), ("extra", PyVal.pstr "ignored")] 3 (by decide)
  rw [h.1]; decide

/-- C10: the required fields undergo no type check: validation and storage
work on the Python string rendering of whatever JSON value is supplied, so a
numeric year 2024 is accepted and stored as "2024" and a boolean false
passes validation as the non-empty string "False". -/
theorem submit_no_type_check (st : DBState) (now : Nat) :
    (∀ data r v, data.lookup r = some v →
      fieldBad data r = (pyStrip (pyStr v) == "")) ∧
    (∀ data r v, data.lookup r = some v → getField data r = pyStrip (pyStr v)) ∧
    pyStr (.pint 2024) = "2024" ∧
    pyStr (.pbool false) = "False" ∧
    (api_submit true st
      (.ok [("afn", PyVal.pstr "a"), ("year", PyVal.pint 2024),
            ("branch", PyVal.pstr "b"), ("comment", PyVal.pstr "c"),
            ("form_type", PyVal.pbool false)]) now true).2 =
      .json 201 (.entryCreated
        [("afn", .s "a"), ("year", .s "2024"), ("branch", .s "b"), ("comment", .s "c"),
         ("form_type", .s "False"), ("created_at", .time now),
         ("_id", .s (Nat.repr st.nextId))]) := by
  refine ⟨?_, ?_, rfl, rfl, rfl⟩
  · intro data r v h; simp [fieldBad, h]
  · intro data r v h; simp [getField, h]

/-- Witness for C10: the coercions applied inside a full submit. -/
theorem submit_no_type_check_witness :
    fieldBad [("year", PyVal.pint 2024)] "year" = (pyStrip (pyStr (.pint 2024)) == "") ∧
    (api_submit true ⟨[], 0⟩
      (.ok [("afn", PyVal.pstr "a"), ("year", PyVal.pint 2024),
            ("branch", PyVal.pstr "b"), ("comment", PyVal.pstr "c"),
            ("form_type", PyVal.pbool false)]) 7 true).2 =
      .json 201 (.entryCreated
        [("afn", .s "a"), ("year", .s "2024"), ("branch", .s "b"), ("comment", .s "c"),
         ("form_type", .s "False"), ("created_at", .time 7), ("_id", .s "0")]) := by
  have h := submit_no_type_check ⟨[], 0⟩ 7
  exact ⟨h.1 [("year", PyVal.pint 2024)] "year" (.pint 2024) rfl, h.2.2.2.2⟩

/-- C3: counts answers the total number of stored entries together with the
exact, case-sensitive petition and demand counts; consequently petitions +
demands ≤ total, and entries with any other form_type value count toward the
total only. -/
theorem counts_correct (docs : List Document) :
    api_counts true docs true =
      .json 200 (.counts docs.length
        (docs.countP (formTypeIs "petition")) (docs.countP (formTypeIs "demand"))) ∧
    docs.countP (formTypeIs "petition") + docs.countP (formTypeIs "demand") ≤
      docs.length ∧
    (∀ d : Document, ∀ t : String, d.lookup "form_type" = some (.s t) →
      t ≠ "petition" → t ≠ "demand" →
      formTypeIs "petition" d = false ∧ formTypeIs "demand" d = false) ∧
    (∀ d : Document, d.lookup "form_type" = none →
      formTypeIs "petition" d = false ∧ formTypeIs "demand" d = false) := by
  refine ⟨rfl, ?_, ?_, ?_⟩
  · apply countP_disjoint_le
    intro d _ hp
    simp only [formTypeIs, beq_iff_eq] at hp
    simp only [formTypeIs, hp, beq_eq_false_iff_ne, ne_eq, Option.some.injEq]
    decide
  · intro d t hl hp hd
    constructor <;> simp [formTypeIs, hl, hp, hd]
  · intro d hl
    constructor <;> simp [formTypeIs, hl]

/-- Witness for C3: five stored entries — one petition, one demand, one with
the differently-cased "Petition", one null, one without the field — count as
total 5, petitions 1, demands 1. -/
theorem counts_correct_witness :
    api_counts true
      [[("form_type", MVal.s "petition")], [("form_type", MVal.s "demand")],
       [("form_type", MVal.s "Petition")], [("form_type", MVal.nul)], []] true =
      .json 200 (.counts 5 1 1) ∧
    formTypeIs "petition" [("form_type", MVal.s "Petition")] = false := by
  have h := counts_correct
    [[("form_type", MVal.s "petition")], [("form_type", MVal.s "demand")],
     [("form_type", MVal.s "Petition")], [("form_type", MVal.nul)], []]
  refine ⟨by rw [h.1]; decide,
    (h.2.2.1 [("form_type", MVal.s "Petition")] "Petition" rfl (by decide) (by decide)).1⟩

/-- C4: the admin-secret check runs before any persistence access: with the
secret unset, or with both the header (checked first) and the query
parameter (checked second) different from the secret, the export answers 401
for every availability state, storage outcome and collection content. -/
theorem export_auth_first (hk pk : Option String) (avail : Bool) (rf : ReadFail)
    (docs : List Document) :
    admin_export_csv none hk pk avail rf docs = .json 401 (.err "Unauthorized") ∧
    (∀ k : String, hk ≠ some k → pk ≠ some k →
      admin_export_csv (some k) hk pk avail rf docs =
        .json 401 (.err "Unauthorized")) := by
  refine ⟨rfl, ?_⟩
  intro k hhk hpk
  have hc : _check_admin_key (some k) hk pk = false := by
    simp [_check_admin_key, hhk, hpk]
  simp [admin_export_csv, hc]

/-- Witness for C4: a wrong header with no query parameter is rejected even
while the database is unavailable and the store would fail mid-iteration. -/
theorem export_auth_first_witness :
    admin_export_csv (some "sekrit") (some "wrong") none false .atIteration
      [[("afn", MVal.s "x")]] = .json 401 (.err "Unauthorized") :=
  (export_auth_first (some "wrong") none false .atIteration
    [[("afn", MVal.s "x")]]).2 "sekrit" (by decide) (by decide)

/-- C5: a successful authorized export yields the CSV whose first row is the
exact fixed header, with one data row per stored document; in each row the
comment has CR replaced by a space and LF by space-backslash-n-space,
missing string fields render as "", a missing timestamp as "" and a present
one in its ISO form. -/
theorem export_csv_shape (k : String) (hk : k ≠ "") (docs : List Document) :
    admin_export_csv (some k) (some k) none true .ok docs =
      .csvAttachment (csvHeaderLine ++
        String.join ((sortByCreatedDesc docs).map exportRow)) ∧
    csvHeaderLine = "id,afn,year,branch,form_type,comment,created_at_utc_iso\r\n" ∧
    ((sortByCreatedDesc docs).map exportRow).length = docs.length ∧
    (∀ d : Document, exportRow d =
      csvRow [strOfLookup (d.lookup "_id"), getStrField d "afn", getStrField d "year",
              getStrField d "branch", getStrField d "form_type",
              escapeComment (getStrField d "comment"), createdCell d]) ∧
    (∀ s : String, (escapeComment s).data = s.data.flatMap escChar) ∧
    escChar (Char.ofNat 13) = [' '] ∧
    escChar (Char.ofNat 10) = [' ', '\\', 'n', ' '] ∧
    (∀ c : Char, c ≠ Char.ofNat 13 → c ≠ Char.ofNat 10 → escChar c = [c]) ∧
    (∀ s : String, ∀ c ∈ (escapeComment s).data,
      c ≠ Char.ofNat 13 ∧ c ≠ Char.ofNat 10) ∧
    (∀ d : Document, d.lookup "comment" = none → getStrField d "comment" = "") ∧
    (∀ d : Document, d.lookup "created_at" = none → createdCell d = "") ∧
    (∀ d : Document, ∀ t, d.lookup "created_at" = some (.time t) →
      createdCell d = isoformat t) := by
  have hc : _check_admin_key (some k) (some k) none = true := by
    simp [_check_admin_key, truthyStr, hk]
  refine ⟨by simp [admin_export_csv, hc], by decide, ?_, fun d => rfl, fun s => rfl,
    by decide, by decide, ?_, ?_, ?_, ?_, ?_⟩
  · simp [sortByCreatedDesc, List.length_insertionSort]
  · intro c h1 h2
    have b1 : (c == Char.ofNat 13) = false := by simpa using h1
    have b2 : (c == Char.ofNat 10) = false := by simpa using h2
    simp [escChar, b1, b2]
  · intro s c hc2
    have hm : c ∈ s.data.flatMap escChar := hc2
    rw [List.mem_flatMap] at hm
    obtain ⟨a, _, hca⟩ := hm
    by_cases h1 : a = Char.ofNat 13
    · subst h1
      simp only [escChar] at hca
      norm_num at hca
      subst hca; exact ⟨by decide, by decide⟩
    · by_cases h2 : a = Char.ofNat 10
      · subst h2
        have hm2 : c = ' ' ∨ c = '\\' ∨ c = 'n' ∨ c = ' ' := by
          simpa [escChar] using hca
        rcases hm2 with rfl | rfl | rfl | rfl <;> exact ⟨by decide, by decide⟩
      · have b1 : (a == Char.ofNat 13) = false := by simpa using h1
        have b2 : (a == Char.ofNat 10) = false := by simpa using h2
        simp [escChar, b1, b2] at hca
        subst hca
        exact ⟨h1, h2⟩
  · intro d h; simp [getStrField, h]
  · intro d h; simp [createdCell, h]
  · intro d t h; simp [createdCell, h]

/-- Witness for C5: one stored document whose comment embeds a newline
exports as the exact header plus one escaped single-line row. -/
theorem export_csv_shape_witness :
    admin_export_csv (some "sek") (some "sek") none true .ok
      [[("_id", MVal.oid 7), ("afn", MVal.s "x"), ("comment", MVal.s "a\nb"),
        ("created_at", MVal.time 3)]] =
      .csvAttachment
        ("id,afn,year,branch,form_type,comment,created_at_utc_iso\r\n" ++
         "7,x,,,,a \\n b,3\r\n") := by
  have h := export_csv_shape "sek" (by decide)
    [[("_id", MVal.oid 7), ("afn", MVal.s "x"), ("comment", MVal.s "a\nb"),
      ("created_at", MVal.time 3)]]
  rw [h.1]; decide

/-- C6 (code defect): a storage failure when the export query is issued is
converted to the 500 JSON envelope, but a failure while the cursor is being
iterated escapes the handler — the loop at app.py line 169 sits outside the
try — so neither a JSON envelope nor a CSV is delivered in that case. -/
theorem export_read_failure_paths (docs : List Document) :
    admin_export_csv (some "k") (some "k") none true .atQuery docs =
      .json 500 (.err "Database read failed") ∧
    admin_export_csv (some "k") (some "k") none true .atIteration docs =
      .unhandled ∧
    (∀ p : Payload, Resp.unhandled ≠ .json 500 p) ∧
    (∀ s : String, Resp.unhandled ≠ .csvAttachment s) :=
  ⟨rfl, rfl, fun _ h => Resp.noConfusion h, fun _ h => Resp.noConfusion h⟩

/-- Witness for C6: the authorized export over an available database whose
read fails during iteration produces the escaped-exception outcome, not the
JSON envelope. -/
theorem export_read_failure_witness :
    admin_export_csv (some "k") (some "k") none true .atIteration [] =
      .unhandled ∧
    Resp.unhandled ≠ .json 500 (.err "Database read failed") :=
  ⟨(export_read_failure_paths []).2.1, (export_read_failure_paths []).2.2.1 _⟩

/-- C7: with the availability flag false, submit, records, counts and
export-after-successful-auth all answer 503 "Database unavailable"; the
collection state is unchanged, and the outcome is independent of the stored
data and of any storage outcome, so no insert and no read is attempted. -/
theorem unavailable_all_routes (st : DBState)
    (body : Except Unit (List (String × PyVal))) (now : Nat)
    (iok rok cok : Bool) (docs : List Document) (k : String) (hkne : k ≠ "")
    (pk : Option String) (rf : ReadFail) :
    api_submit false st body now iok =
      (st, .json 503 (.err "Database unavailable")) ∧
    api_records false docs rok = .json 503 (.err "Database unavailable") ∧
    api_counts false docs cok = .json 503 (.err "Database unavailable") ∧
    admin_export_csv (some k) (some k) pk false rf docs =
      .json 503 (.err "Database unavailable") := by
  refine ⟨rfl, rfl, rfl, ?_⟩
  have hc : _check_admin_key (some k) (some k) pk = true := by
    simp [_check_admin_key, truthyStr, hkne]
  simp [admin_export_csv, hc]

/-- Witness for C7: the unavailable database keeps the state and answers 503
on submit and on the authorized export. -/
theorem unavailable_all_routes_witness :
    api_submit false ⟨[], 0⟩ (.ok []) 0 true =
      (⟨[], 0⟩, .json 503 (.err "Database unavailable")) ∧
    admin_export_csv (some "k") (some "k") none false .ok [] =
      .json 503 (.err "Database unavailable") := by
  have h := unavailable_all_routes ⟨[], 0⟩ (.ok []) 0 true true true [] "k"
    (by decide) none .ok
  exact ⟨h.1, h.2.2.2⟩

/-- C8: records returns all stored entries rendered and ordered by
created_at non-increasing: the output renders a permutation of the
collection sorted newest-first; positions respect the descending key, so an
entry with a strictly smaller timestamp appears strictly after one with a
larger timestamp; each item carries the id as a string, the five fields, and
created_at as an ISO string or null when absent. -/
theorem records_sorted (docs : List Document) :
    api_records true docs true =
      .json 200 (.records ((sortByCreatedDesc docs).map recordItem)) ∧
    (sortByCreatedDesc docs).Perm docs ∧
    List.Sorted newerFirst (sortByCreatedDesc docs) ∧
    (∀ i j : Nat, ∀ hi : i < (sortByCreatedDesc docs).length,
      ∀ hj : j < (sortByCreatedDesc docs).length, i < j →
      createdKey ((sortByCreatedDesc docs).get ⟨j, hj⟩) ≤
        createdKey ((sortByCreatedDesc docs).get ⟨i, hi⟩)) ∧
    (∀ i j : Nat, ∀ hi : i < (sortByCreatedDesc docs).length,
      ∀ hj : j < (sortByCreatedDesc docs).length,
      createdKey ((sortByCreatedDesc docs).get ⟨i, hi⟩) <
        createdKey ((sortByCreatedDesc docs).get ⟨j, hj⟩) → j < i) ∧
    (∀ d : Document, recordItem d =
      [("_id", MVal.s (strOfLookup (d.lookup "_id"))),
       ("afn", orNull (d.lookup "afn")), ("year", orNull (d.lookup "year")),
       ("branch", orNull (d.lookup "branch")),
       ("comment", orNull (d.lookup "comment")),
       ("form_type", orNull (d.lookup "form_type")),
       ("created_at", createdOut d)]) ∧
    (∀ d : Document, ∀ t, d.lookup "created_at" = some (.time t) →
      createdOut d = .s (isoformat t)) ∧
    (∀ d : Document, d.lookup "created_at" = none → createdOut d = .nul) := by
  have hsorted : List.Sorted newerFirst (sortByCreatedDesc docs) :=
    List.sorted_insertionSort newerFirst docs
  have hpair : ∀ i j : Nat, ∀ hi : i < (sortByCreatedDesc docs).length,
      ∀ hj : j < (sortByCreatedDesc docs).length, i < j →
      createdKey ((sortByCreatedDesc docs).get ⟨j, hj⟩) ≤
        createdKey ((sortByCreatedDesc docs).get ⟨i, hi⟩) := by
    intro i j hi hj hij
    exact hsorted.rel_get_of_lt (Fin.mk_lt_mk.mpr hij)
  refine ⟨rfl, List.perm_insertionSort newerFirst docs, hsorted, hpair, ?_,
    fun d => rfl, ?_, ?_⟩
  · intro i j hi hj hlt
    by_contra hji
    rcases lt_or_eq_of_le (Nat.not_lt.mp hji) with h | h
    · exact absurd hlt (not_lt.mpr (hpair i j hi hj h))
    · subst h
      exact lt_irrefl _ hlt
  · intro d t h; simp [createdOut, h]
  · intro d h; simp [createdOut, h]

/-- Witness for C8: two entries with timestamps 1 and 2 come back newest
first, and the strictly older entry sits strictly after the newer one. -/
theorem records_sorted_witness :
    api_records true [[("created_at", MVal.time 1)], [("created_at", MVal.time 2)]]
        true =
      .json 200 (.records
        [[("_id", MVal.s "None"), ("afn", MVal.nul), ("year", MVal.nul),
          ("branch", MVal.nul), ("comment", MVal.nul), ("form_type", MVal.nul),
          ("created_at", MVal.s "2")],
         [("_id", MVal.s "None"), ("afn", MVal.nul), ("year", MVal.nul),
          ("branch", MVal.nul), ("comment", MVal.nul), ("form_type", MVal.nul),
          ("created_at", MVal.s "1")]]) ∧
    (0 : Nat) < 1 := by
  have h := records_sorted [[("created_at", MVal.time 1)], [("created_at", MVal.time 2)]]
  exact ⟨by rw [h.1]; decide,
    h.2.2.2.2.1 1 0 (by decide) (by decide) (by decide)⟩
